import Mathlib

/-!
# Verification of the request-authentication subsystem of the Retail backend

Shallow embedding of `src/middleware/authMiddleware.js` (rate limiter,
session-token validation, public-auth-token codec, orchestrator) and of the
token encoder `generatePublicAuthToken` from the login handler.

Modelling conventions:
* JavaScript strings are modelled as lists of byte values (`List Nat`,
  each `< 256`); all strings relevant to the claims are ASCII, where JS
  UTF-16 code-unit indexing and UTF-8 byte indexing coincide.
* Timestamps (`Date.now()`) are `Int` epoch milliseconds.
* The in-memory `rateLimitMap` is modelled per source address: each request
  carries in the `Option RateRecord` for its own address and returns the
  updated entry (no other entry is ever touched by the source).
* Asynchronous persistence (`recordBlockedIp`, `saveSessionRecord`) is
  modelled by success/failure flags in `Env`; the audit write for blocked
  addresses is fire-and-forget in the source (its promise is not awaited
  and errors are swallowed), so its flag only decides whether the audit row
  exists, never the HTTP decision.
-/

namespace RetailAuth

/-- `BLOCK_INCREMENT = 5 * 60 * 1000` (initial block duration, ms). -/
def BLOCK_INCREMENT : Int := 5 * 60 * 1000

/-- `REQUEST_LIMIT = 50` (maximum allowed requests in the time window). -/
def REQUEST_LIMIT : Nat := 50

/-- `TIME_WINDOW = 15 * 1000` (fixed counting window, ms). -/
def TIME_WINDOW : Int := 15 * 1000

/-- One entry of `rateLimitMap`: `{ count, start, blockUntil, blockDuration }`. -/
structure RateRecord where
  count : Nat
  start : Int
  blockUntil : Option Int
  blockDuration : Int
deriving DecidableEq

/-- Decision taken by the rate-limiting section for one request. -/
inductive Decision
  | allow
  | reject (retryAfterSeconds : Int)
deriving DecidableEq

/-- Row inserted into `blocked_ips` by `recordBlockedIp`
(`ip, route, block_start, block_end, request_count`). -/
structure BlockedEvent where
  ip : List Nat
  route : List Nat
  blockStart : Int
  blockEnd : Int
  requestCount : Nat
deriving DecidableEq

/-- `Math.ceil(a / b)` for integer `a` and positive integer `b`. -/
def ceilDiv (a b : Int) : Int := -((-a).ediv b)

/-- The window branch of the rate limiter: runs when there is no active
block.  Mirrors the `else if (currentTime - record.start < TIME_WINDOW)`
/ `else` cascade of `authenticateRequest`. -/
def windowStep (ip route : List Nat) (r : RateRecord) (now : Int) :
    Decision × RateRecord × Option BlockedEvent :=
  if now - r.start < TIME_WINDOW then
    if REQUEST_LIMIT < r.count + 1 then
      (Decision.reject (ceilDiv r.blockDuration 1000),
       ⟨r.count + 1, r.start, some (now + r.blockDuration), r.blockDuration * 2⟩,
       some ⟨ip, route, now, now + r.blockDuration, r.count + 1⟩)
    else
      (Decision.allow, ⟨r.count + 1, r.start, r.blockUntil, r.blockDuration⟩, none)
  else
    (Decision.allow, ⟨1, now, none, BLOCK_INCREMENT⟩, none)

/-- The whole rate-limiting section of `authenticateRequest` for one request
from a given address: takes that address's `rateLimitMap` entry (or `none`)
and the current time, and returns the decision, the updated entry, and the
`blocked_ips` row emitted on a violation (if any). -/
def checkAndRecord (ip route : List Nat) (rec? : Option RateRecord) (now : Int) :
    Decision × RateRecord × Option BlockedEvent :=
  match rec? with
  | none => (Decision.allow, ⟨1, now, none, BLOCK_INCREMENT⟩, none)
  | some r =>
    match r.blockUntil with
    | some bu =>
      if now < bu then
        (Decision.reject (ceilDiv (bu - now) 1000), r, none)
      else windowStep ip route r now
    | none => windowStep ip route r now

/-- Runs the rate limiter over a chronological list of request times from a
single address, threading the address's map entry; returns the decision for
every request and the final entry. -/
def runLimiter (ip route : List Nat) (rec? : Option RateRecord) :
    List Int → List Decision × Option RateRecord
  | [] => ([], rec?)
  | t :: ts =>
    let s := checkAndRecord ip route rec? t
    let rest := runLimiter ip route (some s.2.1) ts
    (s.1 :: rest.1, rest.2)

/-! ## Base64 (Node `Buffer` semantics over byte strings) -/

/-- ASCII code of the standard Base64 alphabet character for a sextet. -/
def b64Char (n : Nat) : Nat :=
  if n < 26 then 65 + n
  else if n < 52 then 97 + (n - 26)
  else if n < 62 then 48 + (n - 52)
  else if n = 62 then 43
  else 47

/-- Value of an ASCII code in the Base64 alphabet; `none` for padding and
any character outside the alphabet (Node's decoder skips those). -/
def b64Val (c : Nat) : Option Nat :=
  if 65 ≤ c ∧ c ≤ 90 then some (c - 65)
  else if 97 ≤ c ∧ c ≤ 122 then some (26 + (c - 97))
  else if 48 ≤ c ∧ c ≤ 57 then some (52 + (c - 48))
  else if c = 43 then some 62
  else if c = 47 then some 63
  else none

/-- `Buffer.from(bytes).toString('base64')`: standard Base64 with `=`
padding (ASCII 61). -/
def b64EncodeBytes : List Nat → List Nat
  | a :: b :: c :: rest =>
      b64Char (a / 4) :: b64Char (a % 4 * 16 + b / 16) ::
        b64Char (b % 16 * 4 + c / 64) :: b64Char (c % 64) :: b64EncodeBytes rest
  | [a, b] => [b64Char (a / 4), b64Char (a % 4 * 16 + b / 16), b64Char (b % 16 * 4), 61]
  | [a] => [b64Char (a / 4), b64Char (a % 4 * 16), 61, 61]
  | [] => []

/-- Reassembles bytes from a stream of sextet values (4 sextets → 3 bytes;
a trailing group of 2 or 3 sextets yields 1 or 2 bytes, a single leftover
sextet yields nothing). -/
def decodeGroups : List Nat → List Nat
  | a :: b :: c :: d :: rest =>
      (a * 4 + b / 16) :: (b % 16 * 16 + c / 4) :: (c % 4 * 64 + d) :: decodeGroups rest
  | [a, b, c] => [a * 4 + b / 16, b % 16 * 16 + c / 4]
  | [a, b] => [a * 4 + b / 16]
  | _ => []

/-- `Buffer.from(str, 'base64')`: Node's forgiving Base64 decoder — it skips
any character outside the alphabet (including `=` padding) and reassembles
the remaining sextets. -/
def b64DecodeBytes (s : List Nat) : List Nat := decodeGroups (s.filterMap b64Val)

/-- Node's `Buffer.from(str, 'base64')` never throws: decoding is a total
operation on arbitrary strings. -/
def b64DecodeOpt (s : List Nat) : Option (List Nat) := some (b64DecodeBytes s)

/-- The sextet stream of a byte string (the Base64 encoding before mapping
to alphabet characters and adding padding). -/
def sextets : List Nat → List Nat
  | a :: b :: c :: rest =>
      a / 4 :: (a % 4 * 16 + b / 16) :: (b % 16 * 4 + c / 64) :: c % 64 :: sextets rest
  | [a, b] => [a / 4, a % 4 * 16 + b / 16, b % 16 * 4]
  | [a] => [a / 4, a % 4 * 16]
  | [] => []

/-! ## Public auth token codec -/

/-- Kinds of rejection produced by `authenticateRequest`. -/
inductive ErrKind
  | rateLimited
  | missingSession
  | malformedSession
  | incompleteSession
  | expiredSession
  | sessionStoreFail
  | missingAuth
  | tokenLength
  | tokenEncoding
  | secretMissing
  | tokenStructure
deriving DecidableEq

/-- HTTP status attached to each rejection in `authenticateRequest`. -/
def errStatus : ErrKind → Nat
  | .rateLimited => 429
  | .missingSession => 401
  | .malformedSession => 400
  | .incompleteSession => 400
  | .expiredSession => 403
  | .sessionStoreFail => 500
  | .missingAuth => 401
  | .tokenLength => 401
  | .tokenEncoding => 401
  | .secretMissing => 500
  | .tokenStructure => 403

/-- Result of decoding the `authorization` header. -/
inductive AuthResult
  | ok (userId : List Nat)
  | error (k : ErrKind)
deriving DecidableEq

/-- `generatePublicAuthToken` from the login handler: split the secret at
`floor(len/2)`, merge `first + userId + second`, Base64-encode, and wrap
with the random 20-char prefix and 16-char suffix (passed in here because
they are produced by `crypto.randomBytes`). -/
def generatePublicAuthToken (userId secret pre suf : List Nat) : List Nat :=
  pre ++
    b64EncodeBytes
      (secret.take (secret.length / 2) ++ userId ++ secret.drop (secret.length / 2)) ++
    suf

/-- The `login === "true"` branch of `authenticateRequest`: length check,
strip the 20-char prefix and 16-char suffix, Base64-decode the middle
(total, so the `catch`-based 401 `Invalid token encoding` is dead), check
the secret halves, and extract the embedded user id. -/
def decodeAuthToken (secret? : Option (List Nat)) (tok : List Nat) : AuthResult :=
  if tok.length ≤ 20 + 16 then AuthResult.error ErrKind.tokenLength
  else
    match b64DecodeOpt ((tok.drop 20).take (tok.length - 36)) with
    | none => AuthResult.error ErrKind.tokenEncoding
    | some merged =>
      match secret? with
      | none => AuthResult.error ErrKind.secretMissing
      | some secret =>
        if (secret.take (secret.length / 2)).isPrefixOf merged &&
            (secret.drop (secret.length / 2)).isSuffixOf merged then
          AuthResult.ok
            ((merged.drop (secret.take (secret.length / 2)).length).take
              (merged.length - (secret.drop (secret.length / 2)).length -
                (secret.take (secret.length / 2)).length))
        else AuthResult.error ErrKind.tokenStructure

/-! ## Session token validation -/

/-- The decoded `ts` header after `JSON.parse`, restricted to the fields the
middleware inspects.  `none` models an absent field (`undefined`). -/
structure SessionData where
  generatedAt : Option Int
  sessionId : Option (List Nat)
  sessionPoint : Option (List Nat)
deriving DecidableEq

/-- JS falsiness test `!sessionData.generatedAt || !sessionData.sessionId ||
!sessionData.sessionPoint`: an absent field, a zero `generatedAt`, or an
empty-string `sessionId`/`sessionPoint` all count as missing. -/
def missingField (sd : SessionData) : Bool :=
  (match sd.generatedAt with | none => true | some g => g == 0) ||
  (match sd.sessionId with | none => true | some s => s.isEmpty) ||
  (match sd.sessionPoint with | none => true | some s => s.isEmpty)

/-- Result of the session-token section. -/
inductive SessionCheck
  | ok (sd : SessionData)
  | fail (k : ErrKind)
deriving DecidableEq

/-- The session-token section of `authenticateRequest`.  The `ts` header is
modelled post-parse: outer `none` = header absent, `some none` = Base64
decode/`JSON.parse` threw, `some (some sd)` = parsed descriptor. -/
def validateSession (ts? : Option (Option SessionData)) (now : Int) : SessionCheck :=
  match ts? with
  | none => SessionCheck.fail ErrKind.missingSession
  | some none => SessionCheck.fail ErrKind.malformedSession
  | some (some sd) =>
    if missingField sd then SessionCheck.fail ErrKind.incompleteSession
    else if 30000 < now - sd.generatedAt.getD 0 then SessionCheck.fail ErrKind.expiredSession
    else SessionCheck.ok sd

/-! ## Request authentication orchestrator -/

/-- ASCII `toLowerCase`. -/
def lowerAscii (s : List Nat) : List Nat :=
  s.map (fun c => if 65 ≤ c ∧ c ≤ 90 then c + 32 else c)

/-- ASCII bytes of `"websocket"`. -/
def webSocketBytes : List Nat := [119, 101, 98, 115, 111, 99, 107, 101, 116]

/-- ASCII bytes of `"true"`. -/
def trueBytes : List Nat := [116, 114, 117, 101]

/-- An inbound request as seen by the middleware (headers it inspects). -/
structure Request where
  ip : List Nat
  route : List Nat
  upgrade : Option (List Nat)
  ts : Option (Option SessionData)
  authorization : Option (List Nat)
  login : Option (List Nat)
deriving DecidableEq

/-- `isSocketRequest`: `req.headers.upgrade &&
req.headers.upgrade.toLowerCase() === 'websocket'`. -/
def isSocketRequest (req : Request) : Bool :=
  match req.upgrade with
  | some u => lowerAscii u == webSocketBytes
  | none => false

/-- External collaborators: the configured shared secret
(`process.env.USER_TOKEN_SECRET`) and the success of the two persistence
calls (`saveSessionRecord`, which is awaited; and the `blocked_ips` insert,
which is fire-and-forget). -/
structure Env where
  secret : Option (List Nat)
  sessionSaveOk : Bool
  blockSaveOk : Bool
deriving DecidableEq

/-- `recordBlockedIp`: fire-and-forget insert into `blocked_ips`.  Its
outcome decides only whether the audit row exists; errors are logged and
swallowed, so it can never influence the request decision. -/
def recordBlockedIp (ok : Bool) (ev : Option BlockedEvent) : Option BlockedEvent :=
  if ok then ev else none

/-- Terminal state of `authenticateRequest` for one request. -/
inductive Outcome
  | forward (user : Option (List Nat))
  | err (k : ErrKind)
deriving DecidableEq

/-- `authenticateRequest`: websocket bypass, then rate limiting, then
session-token validation (with the awaited session-log insert), then the
`authorization` header check and — when `login === "true"` — the public
auth token decode.  Returns the terminal outcome, the updated
`rateLimitMap` entry for the request's address, and the `blocked_ips` row
that got persisted (if any). -/
def authenticateRequest (env : Env) (req : Request) (rec? : Option RateRecord) (now : Int) :
    Outcome × Option RateRecord × Option BlockedEvent :=
  if isSocketRequest req then (Outcome.forward none, rec?, none)
  else
    match checkAndRecord req.ip req.route rec? now with
    | (Decision.reject _, r, ev) =>
      (Outcome.err ErrKind.rateLimited, some r, recordBlockedIp env.blockSaveOk ev)
    | (Decision.allow, r, _) =>
      match validateSession req.ts now with
      | SessionCheck.fail k => (Outcome.err k, some r, none)
      | SessionCheck.ok _ =>
        if env.sessionSaveOk then
          match req.authorization with
          | none => (Outcome.err ErrKind.missingAuth, some r, none)
          | some tok =>
            if req.login = some trueBytes then
              match decodeAuthToken env.secret tok with
              | AuthResult.ok uid => (Outcome.forward (some uid), some r, none)
              | AuthResult.error k => (Outcome.err k, some r, none)
            else (Outcome.forward none, some r, none)
        else (Outcome.err ErrKind.sessionStoreFail, some r, none)

/-- `≤ 50` requests inside every 15-second window of an ascending request
history: any two requests less than `TIME_WINDOW` apart (with everything
between them) number at most `REQUEST_LIMIT`. -/
def Rolling (ts : List Int) : Prop :=
  ∀ i j : Nat, i ≤ j → j < ts.length →
    ts.getD j 0 - ts.getD i 0 < TIME_WINDOW → j + 1 - i ≤ REQUEST_LIMIT

/-! ## Helper lemmas: Base64 round trip -/

theorem b64Val_b64Char : ∀ n, n < 64 → b64Val (b64Char n) = some n := by decide

theorem b64Val_pad : b64Val 61 = none := by decide

theorem filterMap_encode : ∀ l : List Nat, (∀ b ∈ l, b < 256) →
    (b64EncodeBytes l).filterMap b64Val = sextets l
  | [] => fun _ => by simp [b64EncodeBytes, sextets]
  | [a] => fun h => by
      have ha : a < 256 := h a (by simp)
      have h1 : b64Val (b64Char (a / 4)) = some (a / 4) := b64Val_b64Char _ (by omega)
      have h2 : b64Val (b64Char (a % 4 * 16)) = some (a % 4 * 16) := b64Val_b64Char _ (by omega)
      simp [b64EncodeBytes, sextets, List.filterMap_cons, h1, h2, b64Val_pad]
  | [a, b] => fun h => by
      have ha : a < 256 := h a (by simp)
      have hb : b < 256 := h b (by simp)
      have h1 : b64Val (b64Char (a / 4)) = some (a / 4) := b64Val_b64Char _ (by omega)
      have h2 : b64Val (b64Char (a % 4 * 16 + b / 16)) = some (a % 4 * 16 + b / 16) :=
        b64Val_b64Char _ (by omega)
      have h3 : b64Val (b64Char (b % 16 * 4)) = some (b % 16 * 4) := b64Val_b64Char _ (by omega)
      simp [b64EncodeBytes, sextets, List.filterMap_cons, h1, h2, h3, b64Val_pad]
  | a :: b :: c :: rest => fun h => by
      have ha : a < 256 := h a (by simp)
      have hb : b < 256 := h b (by simp)
      have hc : c < 256 := h c (by simp)
      have h1 : b64Val (b64Char (a / 4)) = some (a / 4) := b64Val_b64Char _ (by omega)
      have h2 : b64Val (b64Char (a % 4 * 16 + b / 16)) = some (a % 4 * 16 + b / 16) :=
        b64Val_b64Char _ (by omega)
      have h3 : b64Val (b64Char (b % 16 * 4 + c / 64)) = some (b % 16 * 4 + c / 64) :=
        b64Val_b64Char _ (by omega)
      have h4 : b64Val (b64Char (c % 64)) = some (c % 64) := b64Val_b64Char _ (by omega)
      have ih := filterMap_encode rest (fun x hx => h x (by simp [hx]))
      simp [b64EncodeBytes, sextets, List.filterMap_cons, h1, h2, h3, h4, ih]

theorem decodeGroups_sextets : ∀ l : List Nat, (∀ b ∈ l, b < 256) →
    decodeGroups (sextets l) = l
  | [] => fun _ => by simp [sextets, decodeGroups]
  | [a] => fun h => by
      have ha : a < 256 := h a (by simp)
      simp [sextets, decodeGroups]
      omega
  | [a, b] => fun h => by
      have ha : a < 256 := h a (by simp)
      have hb : b < 256 := h b (by simp)
      simp [sextets, decodeGroups]
      omega
  | a :: b :: c :: rest => fun h => by
      have ha : a < 256 := h a (by simp)
      have hb : b < 256 := h b (by simp)
      have hc : c < 256 := h c (by simp)
      have ih := decodeGroups_sextets rest (fun x hx => h x (by simp [hx]))
      simp [sextets, decodeGroups, ih]
      omega

/-- Round trip of the Node Base64 codec on byte strings. -/
theorem b64_roundtrip (l : List Nat) (h : ∀ b ∈ l, b < 256) :
    b64DecodeBytes (b64EncodeBytes l) = l := by
  unfold b64DecodeBytes
  rw [filterMap_encode l h, decodeGroups_sextets l h]

theorem b64EncodeBytes_ne_nil : ∀ l : List Nat, l ≠ [] → b64EncodeBytes l ≠ []
  | [], h => absurd rfl h
  | [a], _ => by simp [b64EncodeBytes]
  | [a, b], _ => by simp [b64EncodeBytes]
  | a :: b :: c :: rest, _ => by simp [b64EncodeBytes]

/-! ## Claim C2: encode/decode round trip of the public auth token -/

/-- C2: for every non-empty `userId` and every shared secret (split at
`floor(len/2)`, even or odd length), decoding
`generatePublicAuthToken userId secret` with the same secret returns
exactly `userId`, for any 20-character random prefix and 16-character
random suffix; and on the spec's concrete scenario the Base64 middle of
secret `"abcdefgh"` and userId `"42"` is `"YWJjZDQyZWZnaA=="`. -/
theorem token_encode_decode_roundtrip (userId secret pre suf : List Nat)
    (hu : userId ≠ [])
    (hpre : pre.length = 20) (hsuf : suf.length = 16)
    (hbytes : ∀ b ∈ secret ++ userId, b < 256) :
    decodeAuthToken (some secret) (generatePublicAuthToken userId secret pre suf) =
      AuthResult.ok userId ∧
    b64EncodeBytes [97, 98, 99, 100, 52, 50, 101, 102, 103, 104] =
      [89, 87, 74, 106, 90, 68, 81, 121, 90, 87, 90, 110, 97, 65, 61, 61] := by
  refine ⟨?_, by decide⟩
  have hm : ∀ b ∈ secret.take (secret.length / 2) ++ userId ++ secret.drop (secret.length / 2),
      b < 256 := by
    intro b hb
    rcases List.mem_append.mp hb with h | h
    · rcases List.mem_append.mp h with h | h
      · exact hbytes b (List.mem_append_left _ (List.take_subset _ _ h))
      · exact hbytes b (List.mem_append_right _ h)
    · exact hbytes b (List.mem_append_left _ (List.drop_subset _ _ h))
  have hmne : secret.take (secret.length / 2) ++ userId ++ secret.drop (secret.length / 2) ≠ [] := by
    intro he
    rcases List.append_eq_nil.mp he with ⟨h1, _⟩
    rcases List.append_eq_nil.mp h1 with ⟨_, h2⟩
    exact hu h2
  have hene :
      b64EncodeBytes
        (secret.take (secret.length / 2) ++ userId ++ secret.drop (secret.length / 2)) ≠ [] :=
    b64EncodeBytes_ne_nil _ hmne
  have hepos :
      0 < (b64EncodeBytes
        (secret.take (secret.length / 2) ++ userId ++ secret.drop (secret.length / 2))).length :=
    List.length_pos.mpr hene
  unfold generatePublicAuthToken decodeAuthToken
  rw [if_neg (by simp only [List.length_append, hpre, hsuf]; omega)]
  rw [List.append_assoc, List.drop_left' hpre]
  have htake :
      (b64EncodeBytes
          (secret.take (secret.length / 2) ++ userId ++ secret.drop (secret.length / 2)) ++
        suf).take
        ((pre ++
          (b64EncodeBytes
            (secret.take (secret.length / 2) ++ userId ++ secret.drop (secret.length / 2)) ++
          suf)).length - 36) =
      b64EncodeBytes
        (secret.take (secret.length / 2) ++ userId ++ secret.drop (secret.length / 2)) := by
    apply List.take_left'
    simp only [List.length_append, hpre, hsuf]
    omega
  rw [htake]
  simp only [b64DecodeOpt, b64_roundtrip _ hm]
  have hpref :
      (secret.take (secret.length / 2)).isPrefixOf
        (secret.take (secret.length / 2) ++ userId ++ secret.drop (secret.length / 2)) = true :=
    List.isPrefixOf_iff_prefix.mpr ⟨userId ++ secret.drop (secret.length / 2),
      by rw [List.append_assoc]⟩
  have hsufx :
      (secret.drop (secret.length / 2)).isSuffixOf
        (secret.take (secret.length / 2) ++ userId ++ secret.drop (secret.length / 2)) = true :=
    List.isSuffixOf_iff_suffix.mpr ⟨secret.take (secret.length / 2) ++ userId, rfl⟩
  rw [if_pos (by rw [hpref, hsufx]; rfl)]
  have hdrop2 :
      (secret.take (secret.length / 2) ++ userId ++ secret.drop (secret.length / 2)).drop
        (secret.take (secret.length / 2)).length =
      userId ++ secret.drop (secret.length / 2) := by
    rw [List.append_assoc]
    exact List.drop_left _ _
  rw [hdrop2]
  have hlen2 :
      (secret.take (secret.length / 2) ++ userId ++ secret.drop (secret.length / 2)).length -
        (secret.drop (secret.length / 2)).length - (secret.take (secret.length / 2)).length =
      userId.length := by
    simp only [List.length_append]
    omega
  rw [hlen2, List.take_left]

/-- Witness for C2 at the spec's concrete scenario: secret `"abcdefgh"`,
userId `"42"`, an all-`'0'` hex prefix and suffix. -/
theorem token_encode_decode_roundtrip_witness :
    decodeAuthToken (some [97, 98, 99, 100, 101, 102, 103, 104])
      (generatePublicAuthToken [52, 50] [97, 98, 99, 100, 101, 102, 103, 104]
        (List.replicate 20 48) (List.replicate 16 48)) = AuthResult.ok [52, 50] ∧
    b64EncodeBytes [97, 98, 99, 100, 52, 50, 101, 102, 103, 104] =
      [89, 87, 74, 106, 90, 68, 81, 121, 90, 87, 90, 110, 97, 65, 61, 61] :=
  token_encode_decode_roundtrip [52, 50] [97, 98, 99, 100, 101, 102, 103, 104]
    (List.replicate 20 48) (List.replicate 16 48)
    (by decide) (by decide) (by decide) (by decide)

/-! ## Claim C10: the BadEncoding branch is dead -/

/-- C10: Node's `Buffer.from(_, 'base64')` is total, so the
`Invalid token encoding` (401) rejection of `decodeAuthToken` is
unreachable; once the length check passes, every rejection is either the
missing-secret configuration error or the structure failure. -/
theorem badEncoding_unreachable (secret? : Option (List Nat)) (tok : List Nat) :
    decodeAuthToken secret? tok ≠ AuthResult.error ErrKind.tokenEncoding ∧
    (¬ tok.length ≤ 20 + 16 →
      ∀ k, decodeAuthToken secret? tok = AuthResult.error k →
        k = ErrKind.secretMissing ∨ k = ErrKind.tokenStructure) := by
  by_cases hl : tok.length ≤ 20 + 16
  · refine ⟨?_, fun hn => absurd hl hn⟩
    unfold decodeAuthToken
    rw [if_pos hl]
    simp
  · constructor
    · unfold decodeAuthToken
      rw [if_neg hl]
      simp only [b64DecodeOpt]
      cases secret? with
      | none => simp
      | some s =>
        simp only []
        split <;> simp
    · intro _ k hk
      unfold decodeAuthToken at hk
      rw [if_neg hl] at hk
      simp only [b64DecodeOpt] at hk
      cases secret? with
      | none =>
        simp only [] at hk
        cases hk
        exact Or.inl rfl
      | some s =>
        simp only [] at hk
        split at hk
        · cases hk
        · cases hk
          exact Or.inr rfl

/-- Witness for C10: a 37-character token with no configured secret is
rejected with the missing-secret error, never with `BadEncoding`. -/
theorem badEncoding_unreachable_witness :
    decodeAuthToken none (List.replicate 37 65) ≠ AuthResult.error ErrKind.tokenEncoding ∧
    (ErrKind.secretMissing = ErrKind.secretMissing ∨
      ErrKind.secretMissing = ErrKind.tokenStructure) :=
  ⟨(badEncoding_unreachable none (List.replicate 37 65)).1,
   (badEncoding_unreachable none (List.replicate 37 65)).2 (by decide)
     ErrKind.secretMissing (by decide)⟩

/-! ## Claim C3: wrong-secret tokens and BadStructure -/

/-- C3 counterexample: a structurally well-formed token encoded with the
*different* secret `"abab"` is **not** rejected by `decodeAuthToken` under
secret `"ab"` — the wrong secret's halves happen to align, so decoding
succeeds and returns `"b42a"` instead of failing with `BadStructure`. -/
theorem wrong_secret_token_not_rejected :
    ([97, 98] : List Nat) ≠ [97, 98, 97, 98] ∧
    decodeAuthToken (some [97, 98])
      (generatePublicAuthToken [52, 50] [97, 98, 97, 98]
        (List.replicate 20 48) (List.replicate 16 48)) ≠
      AuthResult.error ErrKind.tokenStructure ∧
    decodeAuthToken (some [97, 98])
      (generatePublicAuthToken [52, 50] [97, 98, 97, 98]
        (List.replicate 20 48) (List.replicate 16 48)) = AuthResult.ok [98, 52, 50, 97] := by
  decide

/-- C3 amended: `decodeAuthToken` rejects with `BadStructure` exactly when
the Base64-decoded middle fails the prefix/suffix test against the
configured secret's halves (which a wrong-secret token *can* accidentally
pass); and at the orchestrator a `login: "true"` request whose token fails
that test is rejected with HTTP 403 (structure), not 401 (length). -/
theorem wrong_secret_badStructure
    (env : Env) (req : Request) (sd : SessionData) (now : Int) (s tok : List Nat)
    (hup : req.upgrade = none)
    (hts : req.ts = some (some sd))
    (hmf : missingField sd = false)
    (hfresh : now - sd.generatedAt.getD 0 ≤ 30000)
    (hsave : env.sessionSaveOk = true)
    (hauth : req.authorization = some tok)
    (hlogin : req.login = some trueBytes)
    (hsecret : env.secret = some s)
    (hlen : ¬ tok.length ≤ 20 + 16)
    (hstruct : ((s.take (s.length / 2)).isPrefixOf
        (b64DecodeBytes ((tok.drop 20).take (tok.length - 36))) &&
      (s.drop (s.length / 2)).isSuffixOf
        (b64DecodeBytes ((tok.drop 20).take (tok.length - 36)))) = false) :
    decodeAuthToken (some s) tok = AuthResult.error ErrKind.tokenStructure ∧
    (authenticateRequest env req none now).1 = Outcome.err ErrKind.tokenStructure ∧
    errStatus ErrKind.tokenStructure = 403 := by
  have hdec : decodeAuthToken (some s) tok = AuthResult.error ErrKind.tokenStructure := by
    unfold decodeAuthToken
    rw [if_neg hlen]
    simp only [b64DecodeOpt]
    rw [if_neg (by simp [hstruct])]
  refine ⟨hdec, ?_, rfl⟩
  have hsock : isSocketRequest req = false := by simp [isSocketRequest, hup]
  have hval : validateSession req.ts now = SessionCheck.ok sd := by
    rw [hts]
    unfold validateSession
    simp only []
    rw [if_neg (by simp [hmf]), if_neg (by omega)]
  simp [authenticateRequest, hsock, checkAndRecord, hval, hsave, hauth, hlogin, hsecret, hdec]

/-- Witness for the amended C3: secret `"ijklmnop"` configured, token
encoded with secret `"abcdefgh"` — rejected 403 `Invalid token structure`. -/
theorem wrong_secret_badStructure_witness :
    (authenticateRequest
      ⟨some [105, 106, 107, 108, 109, 110, 111, 112], true, true⟩
      ⟨[], [], none, some (some ⟨some 5, some [97], some [97]⟩),
        some (generatePublicAuthToken [52, 50] [97, 98, 99, 100, 101, 102, 103, 104]
          (List.replicate 20 48) (List.replicate 16 48)),
        some trueBytes⟩
      none 5).1 = Outcome.err ErrKind.tokenStructure ∧
    errStatus ErrKind.tokenStructure = 403 :=
  ⟨(wrong_secret_badStructure
      ⟨some [105, 106, 107, 108, 109, 110, 111, 112], true, true⟩
      ⟨[], [], none, some (some ⟨some 5, some [97], some [97]⟩),
        some (generatePublicAuthToken [52, 50] [97, 98, 99, 100, 101, 102, 103, 104]
          (List.replicate 20 48) (List.replicate 16 48)),
        some trueBytes⟩
      ⟨some 5, some [97], some [97]⟩ 5 [105, 106, 107, 108, 109, 110, 111, 112]
      (generatePublicAuthToken [52, 50] [97, 98, 99, 100, 101, 102, 103, 104]
        (List.replicate 20 48) (List.replicate 16 48))
      rfl rfl (by decide) (by decide) rfl rfl rfl rfl (by decide) (by decide)).2.1,
   rfl⟩

/-! ## Claims C4, C7, C8: session token validation -/

/-- C4 counterexample: the freshness check `now - generatedAt > 30000` is
one-sided — a descriptor whose `generatedAt` lies 999000 ms in the future
(well beyond 30000 ms) is accepted and the request is forwarded. -/
theorem future_generatedAt_accepted :
    (authenticateRequest ⟨none, true, true⟩
      ⟨[], [], none, some (some ⟨some 1000000, some [97], some [98]⟩), some [65], none⟩
      none 1000).1 = Outcome.forward none ∧
    30000 < (1000000 : Int) - 1000 := by decide

/-- C4 amended: a complete session descriptor is accepted exactly when
`now - generatedAt ≤ 30000`; the bound is one-sided, so a `generatedAt`
arbitrarily far in the future is accepted. -/
theorem session_freshness_one_sided (sd : SessionData) (now : Int)
    (hmf : missingField sd = false) :
    validateSession (some (some sd)) now = SessionCheck.ok sd ↔
      now - sd.generatedAt.getD 0 ≤ 30000 := by
  unfold validateSession
  simp only []
  rw [if_neg (by simp [hmf])]
  by_cases hx : 30000 < now - sd.generatedAt.getD 0
  · rw [if_pos hx]
    exact ⟨fun h => (nomatch h), fun h => absurd hx (by omega)⟩
  · rw [if_neg hx]
    exact ⟨fun _ => (by omega), fun _ => rfl⟩

/-- Witness for the amended C4: a descriptor generated 999000 ms in the
future passes validation. -/
theorem session_freshness_one_sided_witness :
    validateSession (some (some ⟨some 1000000, some [97], some [97]⟩)) 1000 =
      SessionCheck.ok ⟨some 1000000, some [97], some [97]⟩ :=
  (session_freshness_one_sided ⟨some 1000000, some [97], some [97]⟩ 1000 (by decide)).mpr
    (by decide)

/-- C7: with the required fields present, the validator fails with
`ExpiredToken` (HTTP 403) exactly when `now - generatedAt > 30000`. -/
theorem session_expiry_boundary (sd : SessionData) (now : Int)
    (hmf : missingField sd = false) :
    (validateSession (some (some sd)) now = SessionCheck.fail ErrKind.expiredSession ↔
      30000 < now - sd.generatedAt.getD 0) ∧
    errStatus ErrKind.expiredSession = 403 := by
  refine ⟨?_, rfl⟩
  unfold validateSession
  simp only []
  rw [if_neg (by simp [hmf])]
  by_cases hx : 30000 < now - sd.generatedAt.getD 0
  · rw [if_pos hx]
    exact ⟨fun _ => hx, fun _ => rfl⟩
  · rw [if_neg hx]
    exact ⟨fun h => (nomatch h), fun h => absurd h hx⟩

/-- Witness for C7 at the spec's boundary: `generatedAt` exactly 30001 ms
in the past is rejected as expired; exactly 29999 ms in the past passes
the freshness check. -/
theorem session_expiry_boundary_witness :
    validateSession (some (some ⟨some 1000, some [97], some [97]⟩)) 31001 =
      SessionCheck.fail ErrKind.expiredSession ∧
    validateSession (some (some ⟨some 1000, some [97], some [97]⟩)) 30999 ≠
      SessionCheck.fail ErrKind.expiredSession :=
  ⟨(session_expiry_boundary ⟨some 1000, some [97], some [97]⟩ 31001 (by decide)).1.mpr
      (by decide),
   fun h => absurd
     ((session_expiry_boundary ⟨some 1000, some [97], some [97]⟩ 30999 (by decide)).1.mp h)
     (by decide)⟩

/-- C8 counterexample: a descriptor with all three fields *present* —
`generatedAt = 0` (a falsy number), non-empty `sessionId` and
`sessionPoint` — is still rejected with `IncompleteToken`, so "fails iff a
field is absent" does not hold. -/
theorem incomplete_despite_all_present :
    validateSession (some (some ⟨some 0, some [97], some [98]⟩)) 0 =
      SessionCheck.fail ErrKind.incompleteSession ∧
    (some (0 : Int) ≠ none ∧ some [97] ≠ (none : Option (List Nat)) ∧
      some [98] ≠ (none : Option (List Nat))) := by decide

/-- C8 amended: for every parsed session descriptor, validation fails with
`IncompleteToken` (HTTP 400) iff at least one of `generatedAt`,
`sessionId`, `sessionPoint` is absent *or falsy* (`generatedAt` equal to
`0`, or an empty `sessionId`/`sessionPoint`), per the JS truthiness test. -/
theorem incomplete_iff_missing_or_falsy (sd : SessionData) (now : Int) :
    (validateSession (some (some sd)) now = SessionCheck.fail ErrKind.incompleteSession ↔
      (sd.generatedAt = none ∨ sd.generatedAt = some 0 ∨
       sd.sessionId = none ∨ sd.sessionId = some [] ∨
       sd.sessionPoint = none ∨ sd.sessionPoint = some [])) ∧
    errStatus ErrKind.incompleteSession = 400 := by
  refine ⟨?_, rfl⟩
  obtain ⟨g?, sid?, sp?⟩ := sd
  cases g? <;> cases sid? <;> cases sp?
  all_goals simp [validateSession, missingField]
  all_goals (split_ifs <;> tauto)

/-! ## Claim C9: websocket upgrade bypass -/

/-- C9: any request whose `upgrade` header lowercases to `websocket` is
forwarded immediately: no rate-limit read or state change, no session
validation, no authorization validation, regardless of the other headers
and of the rate-limit state. -/
theorem websocket_bypass (env : Env) (req : Request) (rec? : Option RateRecord) (now : Int)
    (h : isSocketRequest req = true) :
    authenticateRequest env req rec? now = (Outcome.forward none, rec?, none) := by
  unfold authenticateRequest
  rw [if_pos h]

/-- Witness for C9: a mixed-case `WebSocket` upgrade request with no `ts`
or `authorization` header and no rate-limit record is forwarded with the
state untouched. -/
theorem websocket_bypass_witness :
    authenticateRequest ⟨none, true, true⟩
      ⟨[], [], some [87, 101, 98, 83, 111, 99, 107, 101, 116], none, none, none⟩ none 0 =
      (Outcome.forward none, none, none) :=
  websocket_bypass ⟨none, true, true⟩
    ⟨[], [], some [87, 101, 98, 83, 111, 99, 107, 101, 116], none, none, none⟩ none 0
    (by decide)

/-! ## Claim C1: blockDuration escalation across block expiry -/

/-- C1 counterexample: a trace refuting monotone escalation.  51 requests at
`t = 0` trigger a block (`blockDuration` stored as 600000 after doubling);
the first request after the block expires at `t = 300000` takes the
window-expired reset path, shrinking `blockDuration` back to 300000; and the
next violation (request 102) blocks for 300 s again — not the 600 s that
"exactly double the previous blockDurationMs" would demand. -/
theorem blockDuration_not_monotonic :
    (runLimiter [] [] none (List.replicate 51 0)).2 =
      some ⟨51, 0, some 300000, 600000⟩ ∧
    (runLimiter [] [] none (List.replicate 51 0 ++ [300000])).2 =
      some ⟨1, 300000, none, 300000⟩ ∧
    (runLimiter [] [] none
        (List.replicate 51 0 ++ List.replicate 51 300000)).1.getD 101 Decision.allow =
      Decision.reject 300 := by decide

/-- C1 amended: once a block has expired (which always implies the
15-second window has also long passed, blocks lasting at least 300000 ms),
the next request resets the record — `count = 1`, fresh window, no block,
and `blockDurationMs` back to the 300000 ms base.  `blockDurationMs` is
therefore not monotone, and the next violation after an expired block
produces a base-duration block, not double the previous one. -/
theorem block_expiry_resets_duration (ip route : List Nat) (r : RateRecord) (bu now : Int)
    (hb : r.blockUntil = some bu) (hexp : bu ≤ now)
    (hw : TIME_WINDOW ≤ now - r.start) :
    checkAndRecord ip route (some r) now =
      (Decision.allow, ⟨1, now, none, BLOCK_INCREMENT⟩, none) := by
  unfold checkAndRecord
  simp only []
  rw [hb]
  simp only []
  rw [if_neg (by omega)]
  unfold windowStep
  rw [if_neg (by omega)]

/-- Witness for the amended C1: the state reached after the
counterexample's first 51 requests, touched at the moment its block
expires, resets to the base block duration. -/
theorem block_expiry_resets_duration_witness :
    checkAndRecord [] [] (some ⟨51, 0, some 300000, 600000⟩) 300000 =
      (Decision.allow, ⟨1, 300000, none, 300000⟩, none) :=
  block_expiry_resets_duration [] [] ⟨51, 0, some 300000, 600000⟩ 300000 300000
    rfl (by decide) (by decide)

/-! ## Claim C5: bounded traffic is never limited -/

theorem runLimiter_bounded_aux (ip route : List Nat) : ∀ (ts : List Int) (r : RateRecord),
    r.blockUntil = none →
    (∀ j : Nat, j < ts.length → ts.getD j 0 - r.start < TIME_WINDOW →
      r.count + (j + 1) ≤ REQUEST_LIMIT) →
    Rolling ts →
    (runLimiter ip route (some r) ts).1 = List.replicate ts.length Decision.allow
  | [], _, _, _, _ => by simp [runLimiter]
  | t :: rest, r, hb, hcount, hroll => by
    by_cases hw : t - r.start < TIME_WINDOW
    · have h1 : r.count + 1 ≤ REQUEST_LIMIT := hcount 0 (Nat.succ_pos _) hw
      have hstep : checkAndRecord ip route (some r) t =
          (Decision.allow, ⟨r.count + 1, r.start, none, r.blockDuration⟩, none) := by
        unfold checkAndRecord
        simp only []
        rw [hb]
        simp only []
        unfold windowStep
        rw [if_pos hw, if_neg (by omega)]
        rw [hb]
      have hcount2 : ∀ j : Nat, j < rest.length → rest.getD j 0 - r.start < TIME_WINDOW →
          (r.count + 1) + (j + 1) ≤ REQUEST_LIMIT := by
        intro j hj hd
        have := hcount (j + 1) (Nat.succ_lt_succ hj) hd
        omega
      have hroll2 : Rolling rest := by
        intro i j hij hj hd
        have := hroll (i + 1) (j + 1) (Nat.succ_le_succ hij) (Nat.succ_lt_succ hj) hd
        omega
      have ih := runLimiter_bounded_aux ip route rest
        ⟨r.count + 1, r.start, none, r.blockDuration⟩ rfl hcount2 hroll2
      simp only [runLimiter, hstep, List.length_cons, List.replicate_succ]
      rw [ih]
    · have hstep : checkAndRecord ip route (some r) t =
          (Decision.allow, ⟨1, t, none, BLOCK_INCREMENT⟩, none) := by
        unfold checkAndRecord
        simp only []
        rw [hb]
        simp only []
        unfold windowStep
        rw [if_neg hw]
      have hcount2 : ∀ j : Nat, j < rest.length → rest.getD j 0 - t < TIME_WINDOW →
          1 + (j + 1) ≤ REQUEST_LIMIT := by
        intro j hj hd
        have := hroll 0 (j + 1) (Nat.zero_le _) (Nat.succ_lt_succ hj) hd
        omega
      have hroll2 : Rolling rest := by
        intro i j hij hj hd
        have := hroll (i + 1) (j + 1) (Nat.succ_le_succ hij) (Nat.succ_lt_succ hj) hd
        omega
      have ih := runLimiter_bounded_aux ip route rest
        ⟨1, t, none, BLOCK_INCREMENT⟩ rfl hcount2 hroll2
      simp only [runLimiter, hstep, List.length_cons, List.replicate_succ]
      rw [ih]

/-- C5: an address whose ascending request history never packs more than 50
requests into any rolling 15-second window is allowed on every request —
no block is ever triggered for it. -/
theorem bounded_rate_all_allowed (ip route : List Nat) (ts : List Int)
    (hmono : List.Pairwise (· ≤ ·) ts) (hroll : Rolling ts) :
    (runLimiter ip route none ts).1 = List.replicate ts.length Decision.allow := by
  cases ts with
  | nil => simp [runLimiter]
  | cons t rest =>
    have hstep : checkAndRecord ip route none t =
        (Decision.allow, ⟨1, t, none, BLOCK_INCREMENT⟩, none) := rfl
    have hcount2 : ∀ j : Nat, j < rest.length → rest.getD j 0 - t < TIME_WINDOW →
        1 + (j + 1) ≤ REQUEST_LIMIT := by
      intro j hj hd
      have := hroll 0 (j + 1) (Nat.zero_le _) (Nat.succ_lt_succ hj) hd
      omega
    have hroll2 : Rolling rest := by
      intro i j hij hj hd
      have := hroll (i + 1) (j + 1) (Nat.succ_le_succ hij) (Nat.succ_lt_succ hj) hd
      omega
    have ih := runLimiter_bounded_aux ip route rest
      ⟨1, t, none, BLOCK_INCREMENT⟩ rfl hcount2 hroll2
    simp only [runLimiter, hstep, List.length_cons, List.replicate_succ]
    rw [ih]

/-- Witness for C5: three quick requests are all allowed. -/
theorem bounded_rate_all_allowed_witness :
    (runLimiter [] [] none [0, 1, 2]).1 = List.replicate 3 Decision.allow :=
  bounded_rate_all_allowed [] [] [0, 1, 2] (by decide)
    (fun i j hij hj _ => by
      have h3 : j < 3 := by simpa using hj
      simp only [REQUEST_LIMIT]
      omega)

/-! ## Claim C6: the 51st request in a window triggers a block -/

/-- C6: for an address with no active block and 50 requests counted in the
current 15-second window, the next (51st) request is rejected with
`retryAfterSeconds = ceil(blockDuration/1000)` computed from the
*pre-doubling* duration, the block runs until `now + blockDuration`, a
`BlockedEvent` row is produced with request count 51, `blockDuration` is
doubled only in the stored record (for the next violation), the
orchestrator answers 429 — and none of the decision or the stored record
depends on whether the fire-and-forget audit write succeeds (`env1` and
`env2` may differ arbitrarily in `blockSaveOk`). -/
theorem fifty_first_request_blocked
    (r : RateRecord) (now : Int) (env1 env2 : Env) (req : Request)
    (hb : r.blockUntil = none)
    (hw : now - r.start < TIME_WINDOW)
    (hc : r.count = 50)
    (hup : req.upgrade = none) :
    checkAndRecord req.ip req.route (some r) now =
      (Decision.reject (ceilDiv r.blockDuration 1000),
       ⟨51, r.start, some (now + r.blockDuration), r.blockDuration * 2⟩,
       some ⟨req.ip, req.route, now, now + r.blockDuration, 51⟩) ∧
    (authenticateRequest env1 req (some r) now).1 = Outcome.err ErrKind.rateLimited ∧
    (authenticateRequest env2 req (some r) now).1 =
      (authenticateRequest env1 req (some r) now).1 ∧
    (authenticateRequest env2 req (some r) now).2.1 =
      (authenticateRequest env1 req (some r) now).2.1 ∧
    errStatus ErrKind.rateLimited = 429 := by
  have hstep : checkAndRecord req.ip req.route (some r) now =
      (Decision.reject (ceilDiv r.blockDuration 1000),
       ⟨51, r.start, some (now + r.blockDuration), r.blockDuration * 2⟩,
       some ⟨req.ip, req.route, now, now + r.blockDuration, 51⟩) := by
    unfold checkAndRecord
    simp only []
    rw [hb]
    simp only []
    unfold windowStep
    rw [if_pos hw, hc]
    rw [if_pos (by decide)]
  have hsock : isSocketRequest req = false := by simp [isSocketRequest, hup]
  refine ⟨hstep, ?_, ?_, ?_, rfl⟩ <;>
    simp [authenticateRequest, hsock, hstep]

/-- Witness for C6: a record at count 50 in a fresh window; the decision
and the stored record are identical under succeeding and failing audit
writes. -/
theorem fifty_first_request_blocked_witness :
    checkAndRecord [] [] (some ⟨50, 0, none, 300000⟩) 10 =
      (Decision.reject 300, ⟨51, 0, some 300010, 600000⟩,
        some ⟨[], [], 10, 300010, 51⟩) ∧
    (authenticateRequest ⟨none, true, true⟩ ⟨[], [], none, none, none, none⟩
        (some ⟨50, 0, none, 300000⟩) 10).1 = Outcome.err ErrKind.rateLimited ∧
    (authenticateRequest ⟨none, true, false⟩ ⟨[], [], none, none, none, none⟩
        (some ⟨50, 0, none, 300000⟩) 10).1 =
      (authenticateRequest ⟨none, true, true⟩ ⟨[], [], none, none, none, none⟩
        (some ⟨50, 0, none, 300000⟩) 10).1 :=
  ⟨(fifty_first_request_blocked ⟨50, 0, none, 300000⟩ 10 ⟨none, true, true⟩
      ⟨none, true, false⟩ ⟨[], [], none, none, none, none⟩
      rfl (by decide) rfl rfl).1,
   (fifty_first_request_blocked ⟨50, 0, none, 300000⟩ 10 ⟨none, true, true⟩
      ⟨none, true, false⟩ ⟨[], [], none, none, none, none⟩
      rfl (by decide) rfl rfl).2.1,
   (fifty_first_request_blocked ⟨50, 0, none, 300000⟩ 10 ⟨none, true, true⟩
      ⟨none, true, false⟩ ⟨[], [], none, none, none, none⟩
      rfl (by decide) rfl rfl).2.2.1⟩

end RetailAuth
